import Mathlib

/-!
# Voyager travel assistant — verification of the spec against `src/App.tsx`

Shallow embedding of the itinerary composer (`generateItinerary`) and the
conversation controller (`handleSend`) of the Voyager single-page app,
together with theorems settling the specification claims.

Conventions of the embedding:
* TypeScript arrays become `List`; `undefined`/`null` become `Option`.
* Geographic coordinates and temperatures are numeric payload that no claim
  computes with; they are modelled as `Int` so that equality stays decidable.
* `Math.ceil(a / b)` on the nonnegative integers of interest is `ceilDiv`.
* `xs[i]?.name || fallback` is `slotText`: a missing slot or an empty-string
  name (JavaScript falsiness) both yield the fallback.
-/

set_option autoImplicit false
set_option maxRecDepth 8192

namespace Voyager

/-- `Math.ceil (n / d)` for natural `n`, `d` with `d > 0` (the only regime the
controller reaches, since the day count is validated positive first). -/
def ceilDiv (n d : Nat) : Nat := (n + d - 1) / d

/-- The `Location` record produced by the geocoder: `{ lat, lon }`. -/
structure Location where
  lat : Int
  lon : Int
deriving DecidableEq, Repr

/-- The `Place` record produced by `fetchPlaces`. -/
structure Place where
  name : String
  categories : List String
  formatted : String
  place_id : String
  lat : Option Int
  lon : Option Int
deriving DecidableEq, Repr

/-- The `WeatherDay` record produced by `fetchWeatherForecast`. -/
structure WeatherDay where
  date : String
  condition : String
  icon : String
  temp : Int
  humidity : Int
deriving DecidableEq, Repr

/-- `slice[k]?.name || fallback`: the text of one itinerary slot.  A slot
beyond the slice yields the fallback; so does a place whose `name` is the
empty string, because `||` tests falsiness, not presence. -/
def slotText (slice : List Place) (k : Nat) (fallback : String) : String :=
  match slice.get? k with
  | some pl => if pl.name = "" then fallback else pl.name
  | none => fallback

/-- The template literal pushed for one day, with the five activity texts
spliced in.  The string begins with a newline and each of the five lines is
indented by four spaces and prefixed by its emoji label, in the fixed order
Morning, Lunch, Afternoon, Dinner, Evening. -/
def dayString (morning lunch afternoon dinner evening : String) : String :=
  "\n    🌅 Morning: Visit " ++ morning ++
  "\n    🍽️ Lunch: Enjoy at " ++ lunch ++
  "\n    🏞️ Afternoon: Head to " ++ afternoon ++
  "\n    🍴 Dinner: Dine at " ++ dinner ++
  "\n    🌙 Evening: Visit " ++ evening

/-- `perDayAttractions` / `perDayFood`: `Math.min(3, Math.ceil(len / days))`. -/
def perDay (len days : Nat) : Nat := min 3 (ceilDiv len days)

/-- The slice `list.slice(i * perDay, (i + 1) * perDay)` taken for day `i`. -/
def daySlice (l : List Place) (days i : Nat) : List Place :=
  (l.drop (i * perDay l.length days)).take (perDay l.length days)

/-- The body of the `for` loop of `generateItinerary` for day index `i`:
slice the day's attractions and food and fill the five labeled slots, each
with its fixed fallback.  The evening fallback carries a leading space in the
source (`" Take a walk or catch a local event"`). -/
def generateDay (attractions food : List Place) (days i : Nat) : String :=
  dayString
    (slotText (daySlice attractions days i) 0 "Explore local neighborhood")
    (slotText (daySlice food days i) 0 "Local street food")
    (slotText (daySlice attractions days i) 1 "Relax at a nearby café or park")
    (slotText (daySlice food days i) 1 "Try a local restaurant")
    (slotText (daySlice attractions days i) 2 " Take a walk or catch a local event")

/-- `generateItinerary(attractions, food, days)`: one formatted string per
day index `0 ≤ i < days`, in ascending order. -/
def generateItinerary (attractions food : List Place) (days : Nat) : List String :=
  (List.range days).map (generateDay attractions food days)

example : (generateItinerary [] [] 3).length = 3 := by decide
example :
    generateItinerary [] [] 1 =
      [dayString "Explore local neighborhood" "Local street food"
        "Relax at a nearby café or park" "Try a local restaurant"
        " Take a walk or catch a local event"] := by decide

/-- The two conversation steps of the controller (`step` state variable):
`'destination' | 'days'`. -/
inductive Step where
  | destination
  | days
deriving DecidableEq, Repr

/-- A transcript entry (`Message` interface): the optional payload fields are
present only on the final trip message. -/
structure Message where
  text : String
  isBot : Bool
  attractions : Option (List Place) := none
  food : Option (List Place) := none
  itinerary : Option (List String) := none
  weather : Option (List WeatherDay) := none
deriving DecidableEq, Repr

/-- A bot message carrying only text. -/
def botMsg (t : String) : Message := { text := t, isBot := true }

/-- One outbound network request issued by the controller (through
`fetchLocationCoordinates`, `fetchPlaces`, `fetchWeatherForecast`). -/
inductive NetCall where
  | geocode (text : String)
  | places (loc : Location) (categories : String) (days : Nat)
  | weather (lat lon : Int) (days : Nat)
deriving DecidableEq, Repr

/-- Where a hypothetical runtime exception interrupts the `try` block of the
day-count branch: during the parallel place fetches (before `setAllPlaces`
runs) or at the weather fetch (after `setAllPlaces` ran). -/
inductive ThrowSite where
  | atPlaces
  | atWeather
deriving DecidableEq, Repr

/-- The environment reflected into the controller: the resolved results of
the three providers (each already absorbing its own transport failures, as
the fetch wrappers catch internally and return `none` / `[]`), plus an
optional exception site for the day-count `try` block. -/
structure Env where
  geocode : String → Option Location
  placesFor : Location → String → Nat → List Place
  weatherFor : Int → Int → Nat → List WeatherDay
  throwSite : Option ThrowSite

/-- The component state of `App` that the controller reads and writes. -/
structure AppState where
  messages : List Message
  input : String
  isLoading : Bool
  currentLocation : Option Location
  allPlaces : List Place
  step : Step
  destination : String
  tripDays : Option Int
deriving DecidableEq, Repr

/-- `String.prototype.trim` on the whitespace the inputs of interest use
(space, tab, newline, carriage return). -/
def trimJS (s : String) : String :=
  let ws := fun c => c = ' ' ∨ c = '\t' ∨ c = '\n' ∨ c = '\r'
  String.mk (((s.toList.dropWhile ws).reverse.dropWhile ws).reverse)

/-- The numeric value of a digit run. -/
def digitsVal (ds : List Char) : Nat :=
  ds.foldl (fun acc c => acc * 10 + (c.toNat - 48)) 0

/-- `parseInt` (radix 10) applied to an already-trimmed string, as the
controller does: an optional sign followed by the longest digit run; no
digits means `NaN` (`none`).  Hexadecimal autodetection is not modelled; no
claim's input reaches it. -/
def parseIntJS (s : String) : Option Int :=
  match s.toList with
  | '-' :: rest =>
      let ds := rest.takeWhile Char.isDigit
      if ds.isEmpty then none else some (-(digitsVal ds : Int))
  | '+' :: rest =>
      let ds := rest.takeWhile Char.isDigit
      if ds.isEmpty then none else some (digitsVal ds : Int)
  | rest =>
      let ds := rest.takeWhile Char.isDigit
      if ds.isEmpty then none else some (digitsVal ds : Int)

/-- The validation test `isNaN(days) || days <= 0` on the parsed input. -/
def isInvalidDayInput (s : String) : Bool :=
  match parseIntJS s with
  | none => true
  | some d => d ≤ 0

/-- The generic failure message of the day-count `catch` block. -/
def genericFailureText : String := "Sorry, something went wrong. Try again later."

/-- The validation message for an unparseable or non-positive day count. -/
def invalidDaysText : String := "Please enter a valid number of days (e.g., 3, 5, 7)."

/-- `handleSend`, as one atomic transition: given the environment's resolved
provider results, it maps the pre-submission state to the post-submission
state together with the list of network calls issued.  The in-flight guard
(`!input.trim() || isLoading`) returns immediately; both conversation
branches follow the source line by line, with `setState` calls folded into
one record update (`isLoading` is set `true` on entry and `false` before
every exit, so it nets to `false` on every completed path). -/
def handleSend (env : Env) (s : AppState) : AppState × List NetCall :=
  if trimJS s.input = "" ∨ s.isLoading = true then (s, [])
  else
    let userMessage : Message := { text := s.input, isBot := false }
    let m0 := s.messages ++ [userMessage]
    match s.step with
    | Step.destination =>
      match env.geocode s.input with
      | some location =>
          ({ s with
              destination := s.input
              currentLocation := some location
              step := Step.days
              input := ""
              messages := m0 ++
                [botMsg ("Great! How many days will you be staying in " ++ s.input ++ "?")]
              isLoading := false },
           [NetCall.geocode s.input])
      | none =>
          ({ s with
              messages := m0 ++
                [botMsg "I couldn't find that location. Please try again with a different destination."]
              input := ""
              isLoading := false },
           [NetCall.geocode s.input])
    | Step.days =>
      match parseIntJS (trimJS s.input) with
      | none =>
          ({ s with messages := m0 ++ [botMsg invalidDaysText], input := "", isLoading := false },
           [])
      | some d =>
        if d ≤ 0 then
          ({ s with messages := m0 ++ [botMsg invalidDaysText], input := "", isLoading := false },
           [])
        else
          let days := d.toNat
          match s.currentLocation with
          | none =>
              -- `currentLocation!` is a non-null assertion; with a null
              -- location both place fetches throw inside their own `catch`
              -- (yielding `[]`), and the `location.lat` argument of the
              -- weather call throws in `handleSend` itself, landing in the
              -- outer `catch` before any network request fires.
              ({ s with
                  tripDays := some d
                  input := ""
                  messages := m0 ++ [botMsg genericFailureText]
                  isLoading := false },
               [])
          | some location =>
            let attractions := env.placesFor location "tourism.sights,tourism.attraction" days
            let food := env.placesFor location "catering.restaurant,catering.fast_food" days
            let placeCalls :=
              [NetCall.places location "tourism.sights,tourism.attraction" days,
               NetCall.places location "catering.restaurant,catering.fast_food" days]
            match env.throwSite with
            | some ThrowSite.atPlaces =>
                ({ s with
                    tripDays := some d
                    input := ""
                    messages := m0 ++ [botMsg genericFailureText]
                    isLoading := false },
                 placeCalls)
            | some ThrowSite.atWeather =>
                ({ s with
                    tripDays := some d
                    input := ""
                    allPlaces := attractions ++ food
                    messages := m0 ++ [botMsg genericFailureText]
                    isLoading := false },
                 placeCalls ++ [NetCall.weather location.lat location.lon days])
            | none =>
                let itinerary := generateItinerary attractions food days
                let weather := env.weatherFor location.lat location.lon days
                ({ s with
                    tripDays := some d
                    input := ""
                    allPlaces := attractions ++ food
                    messages := m0 ++
                      [{ text := "Here's your travel plan for " ++ s.destination ++ "!"
                         isBot := true
                         attractions := some attractions
                         food := some food
                         itinerary := some itinerary
                         weather := some weather }]
                    step := Step.destination
                    isLoading := false },
                 placeCalls ++ [NetCall.weather location.lat location.lon days])

/-- The initial component state: the greeting message, empty input, no
location, step `'destination'`. -/
def initialState : AppState :=
  { messages := [botMsg "Hello! I'm your travel assistant. Where would you like to go?"]
    input := ""
    isLoading := false
    currentLocation := none
    allPlaces := []
    step := Step.destination
    destination := ""
    tripDays := none }

/-- The states the controller can reach: the initial state, typing into the
input box, and completed `handleSend` transitions under any environment. -/
inductive Reachable : AppState → Prop where
  | init : Reachable initialState
  | type (s : AppState) (t : String) : Reachable s → Reachable { s with input := t }
  | send (s : AppState) (env : Env) : Reachable s → Reachable (handleSend env s).1

/-! ## Helper lemmas about the composer -/

theorem ceilDiv_le_of_le_mul {n m d : Nat} (hd : 0 < d) (h : n ≤ d * m) :
    ceilDiv n d ≤ m := by
  unfold ceilDiv
  have hle : n + d - 1 ≤ d * m + (d - 1) := by omega
  calc (n + d - 1) / d ≤ (d * m + (d - 1)) / d := Nat.div_le_div_right hle
    _ = m + (d - 1) / d := Nat.mul_add_div hd m (d - 1)
    _ = m := by rw [Nat.div_eq_of_lt (by omega), Nat.add_zero]

theorem le_mul_ceilDiv (n d : Nat) (hd : 0 < d) : n ≤ d * ceilDiv n d := by
  unfold ceilDiv
  rcases n with _ | m
  · exact Nat.zero_le _
  · have h1 : m + 1 + d - 1 = m + d := by omega
    rw [h1, Nat.add_div_right m hd, Nat.mul_add, Nat.mul_one]
    have h2 := Nat.div_add_mod m d
    have h3 : m % d < d := Nat.mod_lt _ hd
    omega

theorem generateItinerary_get? (a f : List Place) (days i : Nat) (h : i < days) :
    (generateItinerary a f days).get? i = some (generateDay a f days i) := by
  unfold generateItinerary
  rw [List.get?_map, List.get?_range h, Option.map_some']

theorem slotText_filled {l : List Place} {k : Nat} {fb : String} {pl : Place}
    (h : l.get? k = some pl) (hn : pl.name ≠ "") : slotText l k fb = pl.name := by
  unfold slotText
  rw [h]
  simp [hn]

theorem slotText_fallback_of_empty {l : List Place} {k : Nat} {fb : String} {pl : Place}
    (h : l.get? k = some pl) (hn : pl.name = "") : slotText l k fb = fb := by
  unfold slotText
  rw [h]
  simp [hn]

theorem daySlice_get? {l : List Place} {days i k : Nat} (hk : k < perDay l.length days) :
    (daySlice l days i).get? k = l.get? (i * perDay l.length days + k) := by
  unfold daySlice
  rw [List.get?_take hk, List.get?_drop]

theorem daySlice_covers {l : List Place} {days j : Nat} {p : Place}
    (hj : l.get? j = some p) (hlt : j < days * perDay l.length days) :
    ∃ i, i < days ∧ p ∈ daySlice l days i := by
  set P := perDay l.length days with hP
  have hPpos : 0 < P := by
    rcases Nat.eq_zero_or_pos P with h0 | h0
    · rw [h0, Nat.mul_zero] at hlt; omega
    · exact h0
  refine ⟨j / P, (Nat.div_lt_iff_lt_mul hPpos).2 hlt, ?_⟩
  have hqk : j / P * P + j % P = j := by rw [Nat.mul_comm]; exact Nat.div_add_mod j P
  exact List.get?_mem (show (daySlice l days (j / P)).get? (j % P) = some p by
    rw [daySlice_get? (Nat.mod_lt j hPpos), ← hP, hqk]; exact hj)

/-! ## Composer claims -/

/-- C1: for every pair of place lists and every `days ≥ 1`,
`generateItinerary` returns exactly `days` entries, entry `i` being the
formatted plan of day `i + 1`, in ascending day order; the function is a
total pure function of its arguments. -/
theorem C1_compose_length_and_order (a f : List Place) (days : Nat) (hdays : 1 ≤ days) :
    (generateItinerary a f days).length = days ∧
      ∀ i, i < days →
        (generateItinerary a f days).get? i = some (generateDay a f days i) := by
  constructor
  · unfold generateItinerary
    rw [List.length_map, List.length_range]
  · intro i hi
    exact generateItinerary_get? a f days i hi

/-- Witness for C1 at `a = f = []`, `days = 2`. -/
theorem C1_compose_length_and_order_witness :
    (generateItinerary [] [] 2).length = 2 ∧
      (generateItinerary [] [] 2).get? 0 = some (generateDay [] [] 2 0) ∧
      (generateItinerary [] [] 2).get? 1 = some (generateDay [] [] 2 1) :=
  ⟨(C1_compose_length_and_order [] [] 2 (by decide)).1,
   (C1_compose_length_and_order [] [] 2 (by decide)).2 0 (by decide),
   (C1_compose_length_and_order [] [] 2 (by decide)).2 1 (by decide)⟩

/-- C2: every returned day string decomposes as the fixed five-line template
— the five labeled activity lines in the fixed order Morning, Lunch,
Afternoon, Dinner, Evening, each line prefixed by its label. -/
theorem C2_five_labeled_lines (a f : List Place) (days : Nat) (s : String)
    (hs : s ∈ generateItinerary a f days) :
    ∃ morning lunch afternoon dinner evening,
      s = dayString morning lunch afternoon dinner evening := by
  unfold generateItinerary at hs
  rcases List.mem_map.1 hs with ⟨i, _, rfl⟩
  exact ⟨_, _, _, _, _, rfl⟩

/-- Witness for C2 at the single day of `generateItinerary [] [] 1`. -/
theorem C2_five_labeled_lines_witness :
    generateDay [] [] 1 0 ∈ generateItinerary [] [] 1 ∧
      ∃ morning lunch afternoon dinner evening,
        generateDay [] [] 1 0 = dayString morning lunch afternoon dinner evening :=
  ⟨by decide, C2_five_labeled_lines [] [] 1 _ (by decide)⟩

/-- C3 counterexample: on empty inputs the evening slot does NOT carry the
claimed fallback `"Take a walk or catch a local event"`; the source string
has a leading space (`" Take a walk or catch a local event"`), so the output
differs from the one the claim prescribes. -/
theorem C3_counterexample :
    generateItinerary [] [] 1 ≠
      [dayString "Explore local neighborhood" "Local street food"
        "Relax at a nearby café or park" "Try a local restaurant"
        "Take a walk or catch a local event"] := by decide

/-- C3 amended: `generateItinerary [] [] N` for `N ≥ 1` returns `N` entries,
each made solely of the five fallback strings — with the evening fallback
being `" Take a walk or catch a local event"`, leading space included. -/
theorem C3_all_fallbacks (N : Nat) (h : 1 ≤ N) :
    (generateItinerary [] [] N).length = N ∧
      generateItinerary [] [] N =
        List.replicate N (dayString "Explore local neighborhood" "Local street food"
          "Relax at a nearby café or park" "Try a local restaurant"
          " Take a walk or catch a local event") := by
  constructor
  · unfold generateItinerary
    rw [List.length_map, List.length_range]
  · unfold generateItinerary
    have hgen : ∀ i ∈ List.range N, generateDay [] [] N i =
        dayString "Explore local neighborhood" "Local street food"
          "Relax at a nearby café or park" "Try a local restaurant"
          " Take a walk or catch a local event" := by
      intro i _
      simp [generateDay, daySlice, slotText]
    rw [List.map_congr_left hgen, List.map_const', List.length_range]

/-- Witness for C3 amended at `N = 2`. -/
theorem C3_all_fallbacks_witness :
    (generateItinerary [] [] 2).length = 2 ∧
      generateItinerary [] [] 2 =
        List.replicate 2 (dayString "Explore local neighborhood" "Local street food"
          "Relax at a nearby café or park" "Try a local restaurant"
          " Take a walk or catch a local event") :=
  C3_all_fallbacks 2 (by decide)

set_option maxHeartbeats 1000000 in
/-- C4 counterexample: with `len(A) = 3` and `len(F) = 2` but all names
empty, every slot falls back — the output is the all-fallback day, not the
day built from the (empty) names — so "assigns `A[0]` to morning … and no
fallback text appears" fails without a non-emptiness assumption. -/
theorem C4_counterexample :
    generateItinerary
        [⟨"", [], "", "a1", none, none⟩, ⟨"", [], "", "a2", none, none⟩,
         ⟨"", [], "", "a3", none, none⟩]
        [⟨"", [], "", "f1", none, none⟩, ⟨"", [], "", "f2", none, none⟩] 1 =
      [dayString "Explore local neighborhood" "Local street food"
        "Relax at a nearby café or park" "Try a local restaurant"
        " Take a walk or catch a local event"] ∧
    generateItinerary
        [⟨"", [], "", "a1", none, none⟩, ⟨"", [], "", "a2", none, none⟩,
         ⟨"", [], "", "a3", none, none⟩]
        [⟨"", [], "", "f1", none, none⟩, ⟨"", [], "", "f2", none, none⟩] 1 ≠
      [dayString "" "" "" "" ""] := ⟨by decide, by decide⟩

/-- C4 amended: with `len(A) ≥ 3`, `len(F) ≥ 2` and the five relevant names
non-empty, `generateItinerary A F 1` assigns `A[0]` to morning, `A[1]` to
afternoon, `A[2]` to evening, `F[0]` to lunch and `F[1]` to dinner, with no
fallback used for any slot. -/
theorem C4_roles_from_slices (A F : List Place) (a0 a1 a2 f0 f1 : Place)
    (hA0 : A.get? 0 = some a0) (hA1 : A.get? 1 = some a1) (hA2 : A.get? 2 = some a2)
    (hF0 : F.get? 0 = some f0) (hF1 : F.get? 1 = some f1)
    (hn0 : a0.name ≠ "") (hn1 : a1.name ≠ "") (hn2 : a2.name ≠ "")
    (hm0 : f0.name ≠ "") (hm1 : f1.name ≠ "") :
    generateItinerary A F 1 = [dayString a0.name f0.name a1.name f1.name a2.name] := by
  have hlenA : 3 ≤ A.length := by
    by_contra hc
    rw [List.get?_eq_none.2 (by omega)] at hA2
    cases hA2
  have hlenF : 2 ≤ F.length := by
    by_contra hc
    rw [List.get?_eq_none.2 (by omega)] at hF1
    cases hF1
  have hpA : perDay A.length 1 = 3 := by unfold perDay ceilDiv; omega
  have hpF : 2 ≤ perDay F.length 1 := by unfold perDay ceilDiv; omega
  have eA : ∀ k, k < 3 → (daySlice A 1 0).get? k = A.get? k := by
    intro k hk
    rw [daySlice_get? (by omega), Nat.zero_mul, Nat.zero_add]
  have eF : ∀ k, k < 2 → (daySlice F 1 0).get? k = F.get? k := by
    intro k hk
    rw [daySlice_get? (by omega), Nat.zero_mul, Nat.zero_add]
  have hone : List.range 1 = [0] := by decide
  unfold generateItinerary
  rw [hone, List.map_cons, List.map_nil]
  unfold generateDay
  rw [slotText_filled ((eA 0 (by omega)).trans hA0) hn0,
      slotText_filled ((eA 1 (by omega)).trans hA1) hn1,
      slotText_filled ((eA 2 (by omega)).trans hA2) hn2,
      slotText_filled ((eF 0 (by omega)).trans hF0) hm0,
      slotText_filled ((eF 1 (by omega)).trans hF1) hm1]

/-- Witness for C4 amended on a concrete five-place trip. -/
theorem C4_roles_from_slices_witness :
    generateItinerary
        [⟨"Louvre", [], "", "a1", none, none⟩, ⟨"Orsay", [], "", "a2", none, none⟩,
         ⟨"Eiffel Tower", [], "", "a3", none, none⟩]
        [⟨"Cafe Flore", [], "", "f1", none, none⟩, ⟨"Bistro", [], "", "f2", none, none⟩] 1 =
      [dayString "Louvre" "Cafe Flore" "Orsay" "Bistro" "Eiffel Tower"] :=
  C4_roles_from_slices
    [⟨"Louvre", [], "", "a1", none, none⟩, ⟨"Orsay", [], "", "a2", none, none⟩,
     ⟨"Eiffel Tower", [], "", "a3", none, none⟩]
    [⟨"Cafe Flore", [], "", "f1", none, none⟩, ⟨"Bistro", [], "", "f2", none, none⟩]
    ⟨"Louvre", [], "", "a1", none, none⟩ ⟨"Orsay", [], "", "a2", none, none⟩
    ⟨"Eiffel Tower", [], "", "a3", none, none⟩
    ⟨"Cafe Flore", [], "", "f1", none, none⟩ ⟨"Bistro", [], "", "f2", none, none⟩
    (by decide) (by decide) (by decide) (by decide)
    (by decide) (by decide) (by decide) (by decide) (by decide) (by decide)

/-- C5 counterexample: with 4 attractions and `days = 1`,
`perDay = min 3 (ceil 4/1) = 3`, so the only day's slice holds the first 3
places and the 4th appears in no day's slice — "every element of the
attractions input appears in some day's attraction slice" fails. -/
theorem C5_counterexample :
    ¬ ∀ p ∈ ([⟨"P0", [], "", "p0", none, none⟩, ⟨"P1", [], "", "p1", none, none⟩,
              ⟨"P2", [], "", "p2", none, none⟩, ⟨"P3", [], "", "p3", none, none⟩] :
          List Place),
        ∃ i ∈ List.range 1,
          p ∈ daySlice
              [⟨"P0", [], "", "p0", none, none⟩, ⟨"P1", [], "", "p1", none, none⟩,
               ⟨"P2", [], "", "p2", none, none⟩, ⟨"P3", [], "", "p3", none, none⟩] 1 i := by
  decide

/-- C5 amended: `perDay = min(3, ceil(len/days))` caps every day at 3 slots;
every input element whose index is below `days * perDay` appears in some
day's slice; hence all elements are distributed exactly when the input holds
at most `3 * days` places — elements beyond that are dropped.  The statement
is over one generic list, covering attractions and food alike, since the
source computes both slices the same way. -/
theorem C5_caps_and_distribution (l : List Place) (days : Nat) (hdays : 1 ≤ days) :
    perDay l.length days ≤ 3 ∧
      (∀ i, (daySlice l days i).length ≤ 3) ∧
      (∀ j p, l.get? j = some p → j < days * perDay l.length days →
        ∃ i, i < days ∧ p ∈ daySlice l days i) ∧
      (l.length ≤ 3 * days →
        ∀ j p, l.get? j = some p → ∃ i, i < days ∧ p ∈ daySlice l days i) := by
  refine ⟨Nat.min_le_left _ _, ?_, ?_, ?_⟩
  · intro i
    exact le_trans (List.length_take_le _ _) (Nat.min_le_left _ _)
  · intro j p hj hlt
    exact daySlice_covers hj hlt
  · intro hlen j p hj
    have hjlen : j < l.length := by
      by_contra hc
      rw [List.get?_eq_none.2 (by omega)] at hj
      cases hj
    have hcd : ceilDiv l.length days ≤ 3 :=
      ceilDiv_le_of_le_mul (by omega) (by omega)
    have hPeq : perDay l.length days = ceilDiv l.length days := by
      unfold perDay; omega
    have hcov : l.length ≤ days * perDay l.length days := by
      rw [hPeq]
      exact le_mul_ceilDiv _ _ (by omega)
    exact daySlice_covers hj (by omega)

/-- Witness for C5 amended at a 4-place list over 2 days (4 ≤ 3·2, all fit). -/
theorem C5_caps_and_distribution_witness :
    perDay 4 2 ≤ 3 ∧
      (daySlice [⟨"P0", [], "", "p0", none, none⟩, ⟨"P1", [], "", "p1", none, none⟩,
        ⟨"P2", [], "", "p2", none, none⟩, ⟨"P3", [], "", "p3", none, none⟩] 2 1).length ≤ 3 ∧
      ∃ i, i < 2 ∧ (⟨"P3", [], "", "p3", none, none⟩ : Place) ∈
        daySlice [⟨"P0", [], "", "p0", none, none⟩, ⟨"P1", [], "", "p1", none, none⟩,
          ⟨"P2", [], "", "p2", none, none⟩, ⟨"P3", [], "", "p3", none, none⟩] 2 i :=
  ⟨(C5_caps_and_distribution
      [⟨"P0", [], "", "p0", none, none⟩, ⟨"P1", [], "", "p1", none, none⟩,
       ⟨"P2", [], "", "p2", none, none⟩, ⟨"P3", [], "", "p3", none, none⟩] 2 (by decide)).1,
   ((C5_caps_and_distribution
      [⟨"P0", [], "", "p0", none, none⟩, ⟨"P1", [], "", "p1", none, none⟩,
       ⟨"P2", [], "", "p2", none, none⟩, ⟨"P3", [], "", "p3", none, none⟩] 2 (by decide)).2.1) 1,
   (C5_caps_and_distribution
      [⟨"P0", [], "", "p0", none, none⟩, ⟨"P1", [], "", "p1", none, none⟩,
       ⟨"P2", [], "", "p2", none, none⟩, ⟨"P3", [], "", "p3", none, none⟩] 2
        (by decide)).2.2.2 (by decide) 3 ⟨"P3", [], "", "p3", none, none⟩ (by decide)⟩

/-- C10: a slot occupied by a place whose `name` is the empty string gets
the role's fallback text, because `?.name || fallback` tests falsiness, not
presence — shown here for the morning role of day `i`: the day's entry
carries the fallback `"Explore local neighborhood"`, not the place's (empty)
name. -/
theorem C10_empty_name_gets_fallback (a f : List Place) (days i : Nat) (hi : i < days)
    (pl : Place) (hslot : (daySlice a days i).get? 0 = some pl) (hname : pl.name = "") :
    ∃ lunch afternoon dinner evening,
      (generateItinerary a f days).get? i =
        some (dayString "Explore local neighborhood" lunch afternoon dinner evening) ∧
      "Explore local neighborhood" ≠ pl.name := by
  refine ⟨slotText (daySlice f days i) 0 "Local street food",
         slotText (daySlice a days i) 1 "Relax at a nearby café or park",
         slotText (daySlice f days i) 1 "Try a local restaurant",
         slotText (daySlice a days i) 2 " Take a walk or catch a local event", ?_, ?_⟩
  · rw [generateItinerary_get? a f days i hi]
    unfold generateDay
    rw [slotText_fallback_of_empty hslot hname]
  · rw [hname]
    decide

/-- Witness for C10 at a single empty-named place. -/
theorem C10_empty_name_gets_fallback_witness :
    ∃ lunch afternoon dinner evening,
      (generateItinerary [⟨"", [], "", "x", none, none⟩] [] 1).get? 0 =
        some (dayString "Explore local neighborhood" lunch afternoon dinner evening) ∧
      "Explore local neighborhood" ≠ (⟨"", [], "", "x", none, none⟩ : Place).name :=
  C10_empty_name_gets_fallback [⟨"", [], "", "x", none, none⟩] [] 1 0 (by decide)
    ⟨"", [], "", "x", none, none⟩ (by decide) (by decide)

/-! ## Controller claims -/

/-- A benign environment: geocoding always resolves, providers return empty
lists, nothing throws. -/
def env1 : Env :=
  { geocode := fun _ => some ⟨10, 20⟩
    placesFor := fun _ _ _ => []
    weatherFor := fun _ _ _ => []
    throwSite := none }

/-- An environment whose day-count `try` block throws during the parallel
place fetches. -/
def envThrow : Env :=
  { geocode := fun _ => none
    placesFor := fun _ _ _ => []
    weatherFor := fun _ _ _ => []
    throwSite := some ThrowSite.atPlaces }

/-- A day-count-awaiting state with a resolved location, poised to submit
`"3"`. -/
def sAwaitDays : AppState :=
  { messages := []
    input := "3"
    isLoading := false
    currentLocation := some ⟨10, 20⟩
    allPlaces := []
    step := Step.days
    destination := "Paris"
    tripDays := none }

/-- Preservation of "a day-count state has a location" across one
`handleSend` transition. -/
theorem handleSend_preserves_loc_inv (env : Env) (s : AppState)
    (ih : s.step = Step.days → s.currentLocation.isSome = true) :
    (handleSend env s).1.step = Step.days →
      (handleSend env s).1.currentLocation.isSome = true := by
  unfold handleSend
  by_cases hg : (trimJS s.input = "" ∨ s.isLoading = true)
  · rw [if_pos hg]
    exact ih
  · rw [if_neg hg]
    cases hstep : s.step with
    | destination =>
      cases env.geocode s.input with
      | some location => intro _; simp
      | none => intro h0; simp at h0
    | days =>
      cases parseIntJS (trimJS s.input) with
      | none => intro _; simpa using ih hstep
      | some d =>
        by_cases hd : d ≤ 0
        · intro _
          simpa [hd] using ih hstep
        · cases hloc : s.currentLocation with
          | none =>
            have hcontra := ih hstep
            rw [hloc] at hcontra
            simp at hcontra
          | some location =>
            cases env.throwSite with
            | none => intro h0; simp [hd] at h0
            | some site =>
              cases site with
              | atPlaces => intro _; simp [hd]
              | atWeather => intro _; simp [hd]

/-- C6 counterexample: after a full successful cycle (destination `"Paris"`,
then `"3"` days) the controller is back in `AwaitingDestination` but
`currentLocation` is still set — the success path never clears it — so "the
stored location is set if and only if the state is `AwaitingDayCount`"
fails at a reachable state. -/
theorem C6_counterexample :
    ¬ ∀ s : AppState, Reachable s →
        (s.currentLocation.isSome = true ↔ s.step = Step.days) := by
  intro h
  have hreach : Reachable
      (handleSend env1
        { (handleSend env1 { initialState with input := "Paris" }).1 with input := "3" }).1 :=
    Reachable.send _ env1 (Reachable.type _ "3"
      (Reachable.send _ env1 (Reachable.type _ "Paris" Reachable.init)))
  have hiff := h _ hreach
  have hloc : ((handleSend env1
      { (handleSend env1 { initialState with input := "Paris" }).1 with
        input := "3" }).1).currentLocation.isSome = true := by decide
  have hstep : ((handleSend env1
      { (handleSend env1 { initialState with input := "Paris" }).1 with
        input := "3" }).1).step = Step.destination := by decide
  rw [hstep] at hiff
  exact absurd (hiff.1 hloc) (by decide)

/-- C6 amended: at every reachable state, the stored location is set
whenever the state is `AwaitingDayCount`; the converse direction fails (see
the counterexample), since a completed cycle returns to
`AwaitingDestination` without clearing the location. -/
theorem C6_days_state_has_location (s : AppState) (h : Reachable s) :
    s.step = Step.days → s.currentLocation.isSome = true := by
  induction h with
  | init =>
    intro h0
    simp [initialState] at h0
  | type s t hr ih => exact ih
  | send s env hr ih => exact handleSend_preserves_loc_inv env s ih

/-- Witness for C6 amended after geocoding `"Paris"`. -/
theorem C6_days_state_has_location_witness :
    ((handleSend env1 { initialState with input := "Paris" }).1).currentLocation.isSome
      = true :=
  C6_days_state_has_location _
    (Reachable.send _ env1 (Reachable.type _ "Paris" Reachable.init)) (by decide)

/-- C7 counterexample: when the day-count branch throws, the controller
emits the generic failure message but does NOT reset to
`AwaitingDestination` — the `catch` block never calls `setStep`, so the
state stays `AwaitingDayCount`. -/
theorem C7_counterexample :
    (handleSend envThrow sAwaitDays).1.messages =
        [{ text := "3", isBot := false }, botMsg genericFailureText] ∧
      (handleSend envThrow sAwaitDays).1.step ≠ Step.destination :=
  ⟨by decide, by decide⟩

/-- C7 amended: an exception anywhere in the day-count branch is caught as
a single unit — exactly one generic failure message is appended (after the
echoed user message) and the in-flight flag is cleared so the next
submission is accepted — but the state remains `AwaitingDayCount`, with the
stored location retained, rather than resetting to `AwaitingDestination`. -/
theorem C7_catch_single_message_no_reset (env : Env) (s : AppState) (d : Int)
    (loc : Location)
    (hne : trimJS s.input ≠ "") (hload : s.isLoading = false)
    (hstep : s.step = Step.days)
    (hp : parseIntJS (trimJS s.input) = some d) (hd : 0 < d)
    (hloc : s.currentLocation = some loc)
    (hthrow : env.throwSite.isSome = true) :
    (handleSend env s).1.messages =
        s.messages ++ [{ text := s.input, isBot := false }, botMsg genericFailureText] ∧
      (handleSend env s).1.step = Step.days ∧
      (handleSend env s).1.currentLocation = some loc ∧
      (handleSend env s).1.isLoading = false := by
  have hg : ¬ (trimJS s.input = "" ∨ s.isLoading = true) := by simp [hne, hload]
  have hdle : ¬ d ≤ 0 := by omega
  unfold handleSend
  rw [if_neg hg, hstep, hp, hloc]
  cases hts : env.throwSite with
  | none => rw [hts] at hthrow; simp at hthrow
  | some site =>
    cases site with
    | atPlaces =>
      exact ⟨by simp [hdle], by simp [hdle], by simp [hdle], by simp [hdle]⟩
    | atWeather =>
      exact ⟨by simp [hdle], by simp [hdle], by simp [hdle], by simp [hdle]⟩

/-- Witness for C7 amended: the throwing environment applied to the
concrete day-count state. -/
theorem C7_catch_single_message_no_reset_witness :
    (handleSend envThrow sAwaitDays).1.messages =
        sAwaitDays.messages ++
          [{ text := "3", isBot := false }, botMsg genericFailureText] ∧
      (handleSend envThrow sAwaitDays).1.step = Step.days ∧
      (handleSend envThrow sAwaitDays).1.currentLocation = some ⟨10, 20⟩ ∧
      (handleSend envThrow sAwaitDays).1.isLoading = false :=
  C7_catch_single_message_no_reset envThrow sAwaitDays 3 ⟨10, 20⟩
    (by decide) rfl rfl (by decide) (by decide) rfl rfl

/-- C8: in `AwaitingDayCount`, a submission that does not parse to a
positive integer (`isNaN(parseInt(..)) || ≤ 0`) leaves the step, stored
location, destination, trip days and place list unchanged, issues no
network call, appends exactly the echoed user message plus one validation
message, and clears the in-flight flag. -/
theorem C8_invalid_day_input_rejected (env : Env) (s : AppState)
    (hne : trimJS s.input ≠ "") (hload : s.isLoading = false)
    (hstep : s.step = Step.days)
    (hinv : isInvalidDayInput (trimJS s.input) = true) :
    (handleSend env s).1.step = s.step ∧
      (handleSend env s).1.currentLocation = s.currentLocation ∧
      (handleSend env s).1.destination = s.destination ∧
      (handleSend env s).1.tripDays = s.tripDays ∧
      (handleSend env s).1.allPlaces = s.allPlaces ∧
      (handleSend env s).2 = [] ∧
      (handleSend env s).1.messages =
        s.messages ++ [{ text := s.input, isBot := false }, botMsg invalidDaysText] ∧
      (handleSend env s).1.isLoading = false := by
  have hg : ¬ (trimJS s.input = "" ∨ s.isLoading = true) := by simp [hne, hload]
  unfold handleSend
  rw [if_neg hg, hstep]
  unfold isInvalidDayInput at hinv
  cases hp : parseIntJS (trimJS s.input) with
  | none => exact ⟨by simp, by simp, by simp, by simp, by simp, by simp,
      by simp, by simp⟩
  | some d =>
    rw [hp] at hinv
    have hd : d ≤ 0 := by simpa using hinv
    exact ⟨by simp [hd], by simp [hd], by simp [hd], by simp [hd],
      by simp [hd], by simp [hd], by simp [hd], by simp [hd]⟩

/-- Witness for C8 on the inputs `"0"`, `"-3"` and `"abc"`. -/
theorem C8_invalid_day_input_rejected_witness :
    ((handleSend env1 { sAwaitDays with input := "0" }).1.step = Step.days ∧
      (handleSend env1 { sAwaitDays with input := "0" }).1.currentLocation = some ⟨10, 20⟩ ∧
      (handleSend env1 { sAwaitDays with input := "0" }).2 = [] ∧
      (handleSend env1 { sAwaitDays with input := "0" }).1.messages =
        [{ text := "0", isBot := false }, botMsg invalidDaysText]) ∧
    ((handleSend env1 { sAwaitDays with input := "-3" }).1.step = Step.days ∧
      (handleSend env1 { sAwaitDays with input := "-3" }).2 = []) ∧
    ((handleSend env1 { sAwaitDays with input := "abc" }).1.step = Step.days ∧
      (handleSend env1 { sAwaitDays with input := "abc" }).2 = []) :=
  ⟨⟨(C8_invalid_day_input_rejected env1 _ (by decide) rfl rfl (by decide)).1,
    (C8_invalid_day_input_rejected env1 _ (by decide) rfl rfl (by decide)).2.1,
    (C8_invalid_day_input_rejected env1 _ (by decide) rfl rfl (by decide)).2.2.2.2.2.1,
    (C8_invalid_day_input_rejected env1 _ (by decide) rfl rfl (by decide)).2.2.2.2.2.2.1⟩,
   ⟨(C8_invalid_day_input_rejected env1 _ (by decide) rfl rfl (by decide)).1,
    (C8_invalid_day_input_rejected env1 _ (by decide) rfl rfl (by decide)).2.2.2.2.2.1⟩,
   ⟨(C8_invalid_day_input_rejected env1 _ (by decide) rfl rfl (by decide)).1,
    (C8_invalid_day_input_rejected env1 _ (by decide) rfl rfl (by decide)).2.2.2.2.2.1⟩⟩

/-- C9: while the in-flight guard flag (`isLoading`) is set, `handleSend`
is the identity — no state transition, no appended message, no network
call — so a re-entrant submission is never processed until the current one
resolves. -/
theorem C9_inflight_guard (env : Env) (s : AppState) (h : s.isLoading = true) :
    handleSend env s = (s, []) := by
  unfold handleSend
  rw [if_pos (Or.inr h)]

/-- Witness for C9: a loaded state with pending text is left untouched. -/
theorem C9_inflight_guard_witness :
    handleSend env1 { sAwaitDays with isLoading := true } =
      ({ sAwaitDays with isLoading := true }, []) :=
  C9_inflight_guard env1 { sAwaitDays with isLoading := true } rfl

end Voyager
